import Mathlib

/-!
Verification of the hybrid retrieval-and-citation pipeline of the
`orderly-industry` repository (apps/agent/src): a shallow embedding of
`IsaacusClient` (services/isaacus_client.py) and of the three tool pipelines
`isaacus_search`, `legal_answer` and `legal_classify`
(tools/isaacus_search.py, tools/legal_answer.py, tools/legal_classify.py),
together with theorems settling the specification's claims about them.

Modelling conventions:
* Python floats (scores, thresholds, weights) are embedded as `Rat`;
  no claim depends on floating-point rounding.
* Python dicts coming from JSON are embedded as structures whose fields are
  `Option`-valued exactly where the source reads them with `.get`.
* `await`-able backend calls (the Isaacus SDK, the Supabase RPC endpoints)
  are oracles passed to the embedded pipeline; a call that raises an
  exception is an oracle returning `Except.error`.  The Python
  `try`/`except` structure is embedded explicitly: the body of a tool is a
  function into `Except String <output>` and the outermost handler turns an
  `error` into the structured error dictionary the source returns.
-/

set_option linter.unusedVariables false

namespace OrderlyIndustry

/-- Scores, thresholds and weights (Python floats) are embedded as `Rat`. -/
abbrev Score := Rat

/-! ## Decimal digits

The permalink formatters interpolate Python integers into f-strings, which
renders them in decimal; the embedding uses `Nat.repr`.  To reason about
parsing we relate `Nat.repr` (implemented in core via the fuelled
`Nat.toDigitsCore`) to the structurally recursive `decimalDigits`. -/

/-- Structurally recursive decimal rendering of a natural number
(most significant digit first), used to reason about `Nat.repr`. -/
def decimalDigits (n : Nat) : List Char :=
  if h : n < 10 then [Nat.digitChar n]
  else
    have : n / 10 < n := Nat.div_lt_self (by omega) (by omega)
    decimalDigits (n / 10) ++ [Nat.digitChar (n % 10)]

/-- Parse an initial run of decimal digits, accumulator style. -/
def parseNatAux : Nat → List Char → Option Nat
  | acc, [] => some acc
  | acc, c :: cs =>
      if c.isDigit then parseNatAux (10 * acc + (c.toNat - 48)) cs else none

/-- Parse a non-empty all-digit character list as a natural number. -/
def parseNatChars : List Char → Option Nat
  | [] => none
  | c :: cs => parseNatAux 0 (c :: cs)

/-! ## Splitting a character list at the first occurrence of a separator -/

/-- Split a character list at the first occurrence of `sep`:
`some (before, after)` when `sep` occurs, `none` otherwise. -/
def splitFirst (sep : Char) : List Char → Option (List Char × List Char)
  | [] => none
  | c :: cs =>
      if c = sep then some ([], cs)
      else (splitFirst sep cs).map (fun p => (c :: p.1, p.2))

/-! ## Permalink formatters (from the source) and parser (from the spec)

The pipeline produces permalinks in exactly three places:
* `isaacus_search.py`, `_format_search_result`, line 378:
  `f"cite:{document_id}#{chunk_id}" if chunk_id else f"cite:{document_id}"`;
* `legal_answer.py`, line 317:
  `f"cite:{document_id}#{chunk_id}@{start_pos}-{end_pos}"`;
* `legal_classify.py`, line 301: `f"cite:{doc_id}@{start_idx}-{end_idx}"`.
-/

/-- `_format_search_result`'s permalink (isaacus_search.py line 378). -/
def searchPermalink (document_id chunk_id : String) : String :=
  if chunk_id ≠ "" then "cite:" ++ document_id ++ "#" ++ chunk_id
  else "cite:" ++ document_id

/-- `legal_answer`'s permalink (legal_answer.py line 317). -/
def answerPermalink (document_id chunk_id : String) (start_pos end_pos : Nat) :
    String :=
  "cite:" ++ document_id ++ "#" ++ chunk_id ++ "@"
    ++ Nat.repr start_pos ++ "-" ++ Nat.repr end_pos

/-- `legal_classify`'s permalink (legal_classify.py line 301). -/
def classifyPermalink (doc_id : String) (start_idx end_idx : Nat) : String :=
  "cite:" ++ doc_id ++ "@" ++ Nat.repr start_idx ++ "-" ++ Nat.repr end_idx

/-- The components a permalink encodes, per the citation grammar. -/
structure ParsedCite where
  document_id : String
  chunk_id : Option String
  offsets : Option (Nat × Nat)
  deriving Repr, DecidableEq

/-- Parse `<start>-<end>` (both non-empty decimal digit runs). -/
def parseOffsets (l : List Char) : Option (Nat × Nat) :=
  match splitFirst '-' l with
  | none => none
  | some (s, e) =>
      match parseNatChars s, parseNatChars e with
      | some ns, some ne => some (ns, ne)
      | _, _ => none

/-- Modelled from the spec: the body of a permalink after the `cite:`
scheme, per the citation permalink grammar of spec §6. -/
def parseCiteBody (rest : List Char) : Option ParsedCite :=
  match splitFirst '#' rest with
  | some (doc, after) =>
      match splitFirst '@' after with
      | some (chunk, offs) =>
          (parseOffsets offs).map
            (fun p => ⟨⟨doc⟩, some ⟨chunk⟩, some p⟩)
      | none => some ⟨⟨doc⟩, some ⟨after⟩, none⟩
  | none =>
      match splitFirst '@' rest with
      | some (doc, offs) =>
          (parseOffsets offs).map (fun p => ⟨⟨doc⟩, none, some p⟩)
      | none => some ⟨⟨rest⟩, none, none⟩

/-- Modelled from the spec: the repository contains the permalink
formatters but not the external document viewer that parses permalinks;
this parser follows the citation permalink grammar of spec §6
(`cite:<document_id>`, `cite:<document_id>#<chunk_id>`,
`cite:<document_id>#<chunk_id>@<start>-<end>`,
`cite:<document_id>@<start>-<end>`). -/
def parsePermalinkChars (l : List Char) : Option ParsedCite :=
  match l with
  | 'c' :: 'i' :: 't' :: 'e' :: ':' :: rest => parseCiteBody rest
  | _ => none

/-- Modelled from the spec: parse a permalink string (see
`parsePermalinkChars`). -/
def parsePermalink (s : String) : Option ParsedCite :=
  parsePermalinkChars s.data

/-- The characters the permalink grammar reserves: identifiers interpolated
into a permalink must avoid them for the grammar to be unambiguous
(UUIDs, which the pipeline uses as document and chunk ids, do). -/
def idOk (s : String) : Prop := '#' ∉ s.data ∧ '@' ∉ s.data

instance (s : String) : Decidable (idOk s) := by
  unfold idOk; infer_instance

/-! ## Python truthiness helpers

The source frequently writes `a or b or ""` over dict lookups; Python treats
`None`, `""`, `0` and `[]` as falsy. -/

/-- Python truthiness of an optional string (`None` and `""` are falsy). -/
def truthyStr : Option String → Option String
  | some s => if s = "" then none else some s
  | none => none

/-- Python `a or b or ""` over optional strings. -/
def pyOrStr (a b : Option String) : String :=
  ((truthyStr a).orElse (fun _ => truthyStr b)).getD ""

/-- Python truthiness of an optional number (`None` and `0` are falsy). -/
def truthyScore : Option Score → Option Score
  | some x => if x = 0 then none else some x
  | none => none

/-- Python `a or b or 0.0` over optional numbers. -/
def pyOrScore (a b : Option Score) : Score :=
  ((truthyScore a).orElse (fun _ => truthyScore b)).getD 0

/-- Python truthiness of `d.get("page")`: `None` and `0` are falsy. -/
def truthyNat : Option Nat → Bool
  | some n => n ≠ 0
  | none => false

/-! ## IsaacusClient (services/isaacus_client.py) -/

namespace IsaacusClient

/-- The SDK's QA extraction response as `IsaacusClient.extract` reads it
(lines 160-166): `answer` is always present, while `confidence`, `start`
and `end` are read with `getattr` defaults, so they are `Option`-valued. -/
structure QAResponse where
  answer : String
  confidence : Option Score
  start : Option Nat
  end_ : Option Nat
  deriving DecidableEq

/-- The dictionary `IsaacusClient.extract` returns (lines 161-166). -/
structure ExtractReturn where
  answer : String
  confidence : Score
  start : Nat
  end_ : Nat
  deriving DecidableEq

/-- `IsaacusClient.extract` (isaacus_client.py lines 133-166), given the
SDK response for `(question, context)`: converts the SDK response to a
dict, defaulting `confidence` to `1.0`, `start` to `0` and `end` to
`len(context)` when the response lacks those attributes. -/
def extract (response : QAResponse) (context : String) : ExtractReturn :=
  { answer := response.answer
    confidence := response.confidence.getD 1
    start := response.start.getD 0
    end_ := response.end_.getD context.length }

/-- Parameter names accepted by `IsaacusClient.extract`
(isaacus_client.py lines 133-138: `extract(self, question, context,
model="legal-extract-v1")`). -/
def extractParamNames : List String := ["question", "context", "model"]

end IsaacusClient

/-! ## isaacus_search (tools/isaacus_search.py) -/

/-- Structural citation metadata attached to a chunk (new schema). -/
structure CitationData where
  page : Option Nat
  section_path : List String
  paragraph_index : Option Nat
  heading : Option String
  deriving DecidableEq

/-- A row returned by the chunk-store search RPCs.  Fields are `Option`
exactly where the source reads them with `.get` (dict keys can be absent,
and some differ between the new and legacy schemas).  `rerank_score`
models the key `legal_answer` adds to a chunk dict during reranking. -/
structure Candidate where
  chunk_id : Option String := none
  id : Option String := none
  content : Option String := none
  chunk_text : Option String := none
  similarity : Option Score := none
  score : Option Score := none
  citation : Option CitationData := none
  filename : Option String := none
  document_id : Option String := none
  parent_content : Option String := none
  rerank_score : Option Score := none
  deriving DecidableEq, Inhabited

/-- `get_chunk_text` (isaacus_search.py lines 274-275):
`c.get("content") or c.get("chunk_text") or ""`. -/
def get_chunk_text (c : Candidate) : String := pyOrStr c.content c.chunk_text

/-- Greedy match of the regex `^(\d+\.?)+` after its first (digit)
character: digits and non-adjacent dots (isaacus_search.py line 367). -/
def leadingNumAux : List Char → Bool → List Char
  | [], _ => []
  | c :: cs, prevDot =>
      if c.isDigit then c :: leadingNumAux cs false
      else if c = '.' ∧ ¬ prevDot then c :: leadingNumAux cs true
      else []

/-- The text matched by `re.match(r"^(\d+\.?)+", s)`, or `[]` when the
regex does not match (it matches exactly when `s` starts with a digit). -/
def leadingNum (s : String) : List Char :=
  match s.data with
  | c :: cs => if c.isDigit then c :: leadingNumAux cs false else []
  | [] => []

/-- The optional section part of a formatted citation
(isaacus_search.py lines 361-373): the `§ <numeric-prefix>` form when the
last section-path element starts with a numeric pattern, otherwise the
first three whitespace-separated words of the heading. -/
def sectionFragment (last_section : String) : Option String :=
  let m := leadingNum last_section
  if m ≠ [] then some ("§ " ++ String.mk m)
  else if last_section ≠ "" then
    some (String.intercalate " "
      (((last_section.split Char.isWhitespace).filter (· ≠ "")).take 3))
  else none

/-- The `citation` object `_format_search_result` builds. -/
structure CitationOut where
  page : Option Nat
  section_path : List String
  paragraph_index : Option Nat
  heading : Option String
  formatted : String
  permalink : String
  markdown : String
  deriving DecidableEq

/-- One formatted search result (isaacus_search.py lines 383-400). -/
structure SearchResult where
  document_id : String
  chunk_id : String
  filename : String
  chunk_text : String
  similarity : Score
  rerank_score : Option Score
  citation : CitationOut
  parent_content : Option String
  deriving DecidableEq

/-- `_format_search_result` (isaacus_search.py lines 337-400). -/
def _format_search_result (candidate : Candidate) (rerank_score : Option Score) :
    SearchResult :=
  let chunk_id := pyOrStr candidate.chunk_id candidate.id
  let chunk_text := pyOrStr candidate.content candidate.chunk_text
  let similarity := pyOrScore candidate.similarity candidate.score
  let citation_data := candidate.citation
  let filename := candidate.filename.getD "Document"
  let document_id := candidate.document_id.getD ""
  let page := citation_data.bind (·.page)
  let section_path := (citation_data.map (·.section_path)).getD []
  let pagePart : List String :=
    if truthyNat page then ["p." ++ Nat.repr (page.getD 0)] else []
  let sectionPart : List String :=
    if section_path ≠ [] then
      match sectionFragment (section_path.getLastD "") with
      | some f => [f]
      | none => []
    else []
  let formatted_citation := String.intercalate ", " ([filename] ++ pagePart ++ sectionPart)
  let permalink := searchPermalink document_id chunk_id
  let markdown_citation := "[" ++ formatted_citation ++ "](" ++ permalink ++ ")"
  { document_id := document_id
    chunk_id := chunk_id
    filename := filename
    chunk_text := chunk_text
    similarity := similarity
    rerank_score := rerank_score
    citation :=
      { page := page
        section_path := section_path
        paragraph_index := citation_data.bind (·.paragraph_index)
        heading := citation_data.bind (·.heading)
        formatted := formatted_citation
        permalink := permalink
        markdown := markdown_citation }
    parent_content := candidate.parent_content }

/-- One reranking result as `IsaacusClient.rerank` returns it
(isaacus_client.py lines 124-131): a dict with `index` and `score`. -/
structure RerankItem where
  index : Nat
  score : Score
  deriving DecidableEq

/-- A document row as `get_matter_documents_list` returns it, with the
fields `_handle_no_results` reads. -/
structure MatterDoc where
  filename : String
  processing_status : String
  deriving DecidableEq

/-- The oracles behind `_isaacus_search_async`'s awaited calls.  An HTTP
response is a status code with its parsed JSON body; `Except.error`
models the call raising an exception. -/
structure SearchBackends where
  embed : Except String (List (List Score))
  hybrid : Except String (Nat × List Candidate)
  legacy : Except String (Nat × List Candidate)
  rerank : Except String (List RerankItem)
  matterDocs : List MatterDoc

/-- The JSON body posted to `rpc/hybrid_search_chunks`
(isaacus_search.py lines 218-226), minus the embedding vector. -/
structure HybridRequest where
  query_text : String
  matter_uuid : String
  semantic_weight : Score
  match_threshold : Score
  match_count : Nat
  include_context : Bool
  deriving DecidableEq

/-- The JSON body posted to `rpc/match_document_chunks`
(isaacus_search.py lines 239-244), minus the embedding vector. -/
structure LegacyRequest where
  matter_uuid : String
  match_threshold : Score
  match_count : Nat
  deriving DecidableEq

/-- The dictionary `_isaacus_search_async` returns; keys that only some
paths include are `Option`-valued. -/
structure SearchOut where
  results : List SearchResult
  total_found : Nat
  query : String
  matter_id : String
  reranked : Bool
  error : Option String
  hint : Option String
  available_documents : Option (List MatterDoc)
  processing_documents : Option (List MatterDoc)
  citation_hint : Option String
  deriving DecidableEq

/-- A run of `_isaacus_search_async`: its return value plus a trace of the
backend requests it issued. -/
structure SearchRun where
  output : SearchOut
  hybridRequest : Option HybridRequest
  legacyRequest : Option LegacyRequest
  rerankCalled : Bool
  deriving DecidableEq

/-- The error-shaped dictionary `_isaacus_search_async` returns on every
failure path (results empty, `total_found` 0, an `error` message). -/
def searchErrorOut (query matter_id msg : String) : SearchOut :=
  { results := [], total_found := 0, query := query, matter_id := matter_id
    reranked := false, error := some msg, hint := none
    available_documents := none, processing_documents := none
    citation_hint := none }

/-- `_handle_no_results` (isaacus_search.py lines 403-447). -/
def _handle_no_results (matter_id query : String) (available_docs : List MatterDoc) :
    SearchOut :=
  if available_docs ≠ [] then
    let ready_docs := available_docs.filter (fun d => d.processing_status = "ready")
    let processing_docs := available_docs.filter
      (fun d => d.processing_status ∈ ["pending", "extracting", "embedding"])
    { results := [], total_found := 0, query := query, matter_id := matter_id
      reranked := false, error := none
      available_documents := some ready_docs
      processing_documents := some processing_docs
      hint := some (if ready_docs ≠ [] then
          "No content matched your query '" ++ query ++ "'. There are "
            ++ Nat.repr ready_docs.length
            ++ " searchable document(s) in this matter. Try a different search query, or use list_matter_documents to see all files."
        else
          "Documents are still being processed ("
            ++ Nat.repr processing_docs.length
            ++ " pending). Please wait for processing to complete before searching.")
      citation_hint := none }
  else
    { results := [], total_found := 0, query := query, matter_id := matter_id
      reranked := false, error := none
      available_documents := some []
      processing_documents := none
      hint := some "No documents have been uploaded to this matter yet."
      citation_hint := none }

/-- The `_citation_hint` string of a successful search
(isaacus_search.py lines 309-312). -/
def searchCitationHint : String :=
  "CITATION FORMAT: For each result, use the 'citation.permalink' in markdown links. Example: 'According to [Contract.pdf, p.12, § 7.2](cite:doc-id#chunk-id), the clause states...'"

/-- Steps 3-4 of `_isaacus_search_async` (lines 263-321), entered with the
candidate list of whichever RPC succeeded.  Mirrors the source's
`try`/`except` around reranking: a rerank failure, an out-of-range rerank
index (`candidates[r["index"]]` raising `IndexError`) or an empty rerank
result (the `results[0]` debug print raising `IndexError` — after
`reranked = True` was already set) all fall back to the original order
truncated to `max_results`. -/
def searchRerankStep (bk : SearchBackends) (matter_id query : String)
    (max_results : Nat) (hreq : Option HybridRequest)
    (lreq : Option LegacyRequest) (candidates : List Candidate) : SearchRun :=
  if candidates = [] then
    ⟨_handle_no_results matter_id query bk.matterDocs, hreq, lreq, false⟩
  else if candidates.length > 1 then
    let fallback : List SearchResult :=
      (candidates.take max_results).map (fun row => _format_search_result row none)
    match bk.rerank with
    | .error _ =>
        ⟨{ results := fallback, total_found := fallback.length
           query := query, matter_id := matter_id, reranked := false
           error := none, hint := none, available_documents := none
           processing_documents := none
           citation_hint := some searchCitationHint }, hreq, lreq, true⟩
    | .ok rerank_results =>
        if rerank_results.all (fun r => r.index < candidates.length) then
          let results := rerank_results.map
            (fun r => _format_search_result (candidates.getD r.index default) (some r.score))
          if results = [] then
            ⟨{ results := fallback, total_found := fallback.length
               query := query, matter_id := matter_id, reranked := true
               error := none, hint := none, available_documents := none
               processing_documents := none
               citation_hint := some searchCitationHint }, hreq, lreq, true⟩
          else
            ⟨{ results := results, total_found := results.length
               query := query, matter_id := matter_id, reranked := true
               error := none, hint := none, available_documents := none
               processing_documents := none
               citation_hint := some searchCitationHint }, hreq, lreq, true⟩
        else
          ⟨{ results := fallback, total_found := fallback.length
             query := query, matter_id := matter_id, reranked := false
             error := none, hint := none, available_documents := none
             processing_documents := none
             citation_hint := some searchCitationHint }, hreq, lreq, true⟩
  else
    let results := [_format_search_result (candidates.getD 0 default) none]
    ⟨{ results := results, total_found := results.length
       query := query, matter_id := matter_id, reranked := false
       error := none, hint := none, available_documents := none
       processing_documents := none
       citation_hint := some searchCitationHint }, hreq, lreq, false⟩

/-- `candidate_count` (isaacus_search.py line 207):
`min(max_results * 3, 20)`. -/
def candidate_count (max_results : Nat) : Nat := min (max_results * 3) 20

/-- `_isaacus_search_async` (isaacus_search.py lines 148-334), for a
configured environment, as a function of its backend oracles.  Oracle
errors propagate to the outermost `except`, which returns the structured
error dictionary of lines 325-332. -/
def _isaacus_search_async (bk : SearchBackends) (matter_id query : String)
    (max_results : Nat) (threshold semantic_weight : Score)
    (include_context : Bool) : SearchRun :=
  match bk.embed with
  | .error e => ⟨searchErrorOut query matter_id e, none, none, false⟩
  | .ok embeddings =>
    if embeddings = [] then
      ⟨searchErrorOut query matter_id "Failed to generate query embedding",
        none, none, false⟩
    else
      let cc := candidate_count max_results
      let hreq : HybridRequest :=
        ⟨query, matter_id, semantic_weight, threshold, cc, include_context⟩
      match bk.hybrid with
      | .error e => ⟨searchErrorOut query matter_id e, some hreq, none, false⟩
      | .ok (hstatus, hbody) =>
        if hstatus ≠ 200 then
          let lreq : LegacyRequest := ⟨matter_id, threshold, cc⟩
          match bk.legacy with
          | .error e =>
              ⟨searchErrorOut query matter_id e, some hreq, some lreq, false⟩
          | .ok (lstatus, lbody) =>
            if lstatus ≠ 200 then
              ⟨searchErrorOut query matter_id
                  ("Supabase RPC error: " ++ Nat.repr lstatus),
                some hreq, some lreq, false⟩
            else
              searchRerankStep bk matter_id query max_results
                (some hreq) (some lreq) lbody
        else
          searchRerankStep bk matter_id query max_results (some hreq) none hbody

/-! ## legal_answer (tools/legal_answer.py) -/

/-- Keyword arguments `_legal_answer_async` passes to `client.extract`
(legal_answer.py lines 247-253). -/
def legalAnswerExtractKwargs : List String :=
  ["query", "texts", "model", "top_k", "ignore_inextractability"]

/-- Python keyword binding for the `client.extract(...)` call in
`_legal_answer_async`: the call binds only if every keyword it passes
names a parameter of `IsaacusClient.extract`; otherwise Python raises
`TypeError` at the call site (inside the `try` of lines 245-276). -/
def extractCallBinds : Bool :=
  legalAnswerExtractKwargs.all (fun k => IsaacusClient.extractParamNames.contains k)

/-- The dictionary shape `_legal_answer_async` reads from the value of its
`client.extract(...)` call (lines 255-270): every field is accessed with
`.get`, so all are `Option`-valued. -/
structure ExtractResultDict where
  answer : Option String
  score : Option Score
  text_index : Option Nat
  start : Option Nat
  end_ : Option Nat
  deriving DecidableEq

/-- The `citation` dictionary of a successful `legal_answer`
(legal_answer.py lines 325-333). -/
structure AnswerCitation where
  formatted : String
  permalink : String
  markdown : String
  document_id : String
  chunk_id : String
  start : Nat
  end_ : Nat
  deriving DecidableEq

/-- The dictionary `_legal_answer_async` returns. -/
structure AnswerOut where
  answer : String
  confidence : Score
  citation : Option AnswerCitation
  found : Bool
  error : Option String
  question : Option String
  usage_hint : Option String
  deriving DecidableEq

/-- The oracles behind `_legal_answer_async`'s awaited calls.
`extractQA` is the value the `client.extract(...)` call would produce if
its keyword arguments bound; `Except.error` models a raised exception. -/
structure AnswerBackends where
  embed : Except String (List (List Score))
  search : Except String (Nat × List Candidate)
  rerank : Except String (List RerankItem)
  extractQA : Except String ExtractResultDict

/-- A run of `_legal_answer_async`: its return value plus a trace of the
rerank stage. -/
structure AnswerRun where
  output : AnswerOut
  rerankCalled : Bool
  chunksAfterRerank : List Candidate
  deriving DecidableEq

/-- A found-nothing return of `_legal_answer_async`: `confidence` 0.0,
`citation` `None`, `found` `False`. -/
def answerFail (answer : String) (error : Option String := none) : AnswerOut :=
  { answer := answer, confidence := 0, citation := none, found := false
    error := error, question := none, usage_hint := none }

/-- Step 3 of `_legal_answer_async` (lines 183-208): rerank the chunks,
reorder by rerank score (skipping out-of-range indices), and on an empty
mapping or a rerank exception fall back to the first five chunks in
retrieval order. -/
def answerRerankStep (rerank : Except String (List RerankItem))
    (chunks : List Candidate) : List Candidate :=
  match rerank with
  | .error _ => chunks.take 5
  | .ok reranked =>
      let reranked_chunks := reranked.filterMap (fun item =>
        if item.index < chunks.length then
          some { chunks.getD item.index default with rerank_score := some item.score }
        else none)
      if reranked_chunks ≠ [] then reranked_chunks else chunks.take 5

/-- Steps 4-5 of `_legal_answer_async` (lines 213-337), entered with the
post-rerank chunk list. -/
def answerExtractStep (bk : AnswerBackends) (question : String)
    (chunks : List Candidate) : AnswerOut :=
  let valid_chunks := (chunks.take 3).filter
    (fun c => (c.content.getD "").trim ≠ "")
  if valid_chunks = [] then
    answerFail "No readable content found in relevant documents"
  else
    let best : Option (ExtractResultDict × String) :=
      if extractCallBinds then
        match bk.extractQA with
        | .error _ => none
        | .ok result =>
            match truthyStr result.answer with
            | some ans => some (result, ans)
            | none => none
      else none
    match best with
    | none => answerFail "Could not extract a specific answer from the documents"
    | some (result, best_answer) =>
      let best_score := result.score.getD (1/2)
      let text_index := result.text_index.getD 0
      let best_chunk :=
        if text_index < valid_chunks.length then valid_chunks.getD text_index default
        else valid_chunks.getD 0 default
      let start_pos := result.start.getD 0
      let end_pos := result.end_.getD best_answer.length
      let document_id := best_chunk.document_id.getD ""
      let chunk_id := best_chunk.chunk_id.getD ""
      let filename := best_chunk.filename.getD "Document"
      let citation_data := best_chunk.citation
      let pagePart : List String :=
        if truthyNat (citation_data.bind (·.page)) then
          ["p." ++ Nat.repr ((citation_data.bind (·.page)).getD 0)]
        else []
      let section_path := (citation_data.map (·.section_path)).getD []
      let sectionPart : List String :=
        if section_path ≠ [] then
          ["§ " ++ String.mk ((section_path.getLastD "").data.take 20)]
        else []
      let formatted_citation :=
        String.intercalate ", " ([filename] ++ pagePart ++ sectionPart)
      let permalink := answerPermalink document_id chunk_id start_pos end_pos
      let markdown_citation := "[" ++ formatted_citation ++ "](" ++ permalink ++ ")"
      { answer := best_answer
        confidence := best_score
        citation := some
          { formatted := formatted_citation
            permalink := permalink
            markdown := markdown_citation
            document_id := document_id
            chunk_id := chunk_id
            start := start_pos
            end_ := end_pos }
        found := true
        error := none
        question := some question
        usage_hint := some ("Use this citation in your response: " ++ markdown_citation) }

/-- `_legal_answer_async` (legal_answer.py lines 78-349), for a configured
environment, as a function of its backend oracles.  Oracle errors outside
an inner `try` propagate to the outermost `except` (lines 339-347), which
returns a structured `found=False` dictionary. -/
def _legal_answer_async (bk : AnswerBackends) (matter_id question : String) :
    AnswerRun :=
  match bk.embed with
  | .error e =>
      ⟨answerFail ("Error processing question: " ++ e) (some e), false, []⟩
  | .ok embeddings =>
    if embeddings = [] then
      ⟨answerFail "Failed to process question", false, []⟩
    else
      match bk.search with
      | .error e =>
          ⟨answerFail ("Error processing question: " ++ e) (some e), false, []⟩
      | .ok (status, chunks) =>
        if status ≠ 200 then
          ⟨answerFail "Search failed" (some ("Search error: " ++ Nat.repr status)),
            false, []⟩
        else if chunks = [] then
          ⟨answerFail "No relevant content found in documents", false, []⟩
        else
          let chunks' := answerRerankStep bk.rerank chunks
          ⟨answerExtractStep bk question chunks', true, chunks'⟩

/-! ## legal_classify (tools/legal_classify.py) -/

/-- A document row fetched for classification
(`select=id,filename,extracted_text`); fields are `Option` per `.get`. -/
structure ClassifyDoc where
  id : Option String := none
  filename : Option String := none
  extracted_text : Option String := none
  deriving DecidableEq

/-- One IQL match as `_legal_classify_async` reads it (lines 294-298, all
`.get` access). -/
structure IqlMatch where
  text : Option String := none
  start_index : Option Nat := none
  end_index : Option Nat := none
  score : Option Score := none
  deriving DecidableEq

/-- The dictionary `IsaacusClient.classify_iql` returns
(isaacus_client.py lines 269-308): a document `score` and a `matches`
list. -/
structure IqlResult where
  score : Score
  matches_ : List IqlMatch
  deriving DecidableEq

/-- The `citation` dictionary of one clause match
(legal_classify.py lines 308-315). -/
structure ClauseCitation where
  formatted : String
  permalink : String
  markdown : String
  document_id : String
  start : Nat
  end_ : Nat
  deriving DecidableEq

/-- One clause match (legal_classify.py lines 304-317). -/
structure ClauseMatch where
  text : String
  score : Score
  citation : ClauseCitation
  deriving DecidableEq

/-- One value of the `matches_by_document` dictionary as returned
(legal_classify.py lines 365-367: only `filename` and `count` survive
into the output). -/
structure GroupEntry where
  filename : String
  count : Nat
  deriving DecidableEq

/-- The dictionary `_legal_classify_async` returns; `matches_by_document`
is a Python dict, embedded as an insertion-ordered association list. -/
structure ClassifyOut where
  clause_type : String
  matches_ : List ClauseMatch
  total_found : Nat
  searched_documents : Nat
  matches_by_document : List (String × GroupEntry)
  error : Option String
  message : Option String
  usage_hint : Option String
  instruction : Option String
  deriving DecidableEq

/-- The oracles behind `_legal_classify_async`'s awaited calls.
`documents` is the response of the documents query that ends document
resolution (lines 122-249) — whichever of its branches ran; the
resolution branches only decide which rows come back, which the oracle
already fixes.  `classify_iql` maps a document's text to the value of
`client.classify_iql(iql_query, text)`. -/
structure ClassifyBackends where
  documents : Except String (Nat × List ClassifyDoc)
  classify_iql : String → Except String IqlResult

/-- A run of `_legal_classify_async`: its return value plus the
`(query, text)` pairs on which `classify_iql` was invoked. -/
structure ClassifyRun where
  output : ClassifyOut
  classifyCalls : List (String × String)
  deriving DecidableEq

/-- The IQL query compiled from the clause description
(legal_classify.py line 268: `f"{{IS {clause_type}}}"`). -/
def iql_query (clause_type : String) : String :=
  "\x7bIS " ++ clause_type ++ "\x7d"

/-- The error-shaped dictionary of `_legal_classify_async`'s failure
paths. -/
def classifyFailOut (clause_type : String) (error message : Option String) :
    ClassifyOut :=
  { clause_type := clause_type, matches_ := [], total_found := 0
    searched_documents := 0, matches_by_document := []
    error := error, message := message, usage_hint := none, instruction := none }

/-- The matches one document contributes (legal_classify.py lines
271-321): skip documents with blank text, treat a `classify_iql`
exception as contributing nothing (`continue`), and otherwise convert
each IQL match, defaulting text to `""`, offsets to `0` /
`len(match_text)` and score to the document score. -/
def docMatches (iql : String → Except String IqlResult) (doc : ClassifyDoc) :
    List ClauseMatch :=
  let extracted_text := doc.extracted_text.getD ""
  if extracted_text.trim = "" then []
  else
    match iql extracted_text with
    | .error _ => []
    | .ok result =>
        result.matches_.map (fun m =>
          let match_text := m.text.getD ""
          let start_idx := m.start_index.getD 0
          let end_idx := m.end_index.getD match_text.length
          let match_score := m.score.getD result.score
          let doc_id := doc.id.getD ""
          let filename := doc.filename.getD "Document"
          let permalink := classifyPermalink doc_id start_idx end_idx
          { text := match_text
            score := match_score
            citation :=
              { formatted := filename
                permalink := permalink
                markdown := "[" ++ filename ++ "](" ++ permalink ++ ")"
                document_id := doc_id
                start := start_idx
                end_ := end_idx } })

/-- Increment the `count` of the (unique) entry keyed `d`
(`matches_by_document[doc_id]["count"] += 1`, legal_classify.py line
337; dict keys are unique, so the first occurrence is the only one). -/
def bumpFirst (d : String) : List (String × GroupEntry) → List (String × GroupEntry)
  | [] => []
  | p :: ps =>
      if p.1 = d then (p.1, { p.2 with count := p.2.count + 1 }) :: ps
      else p :: bumpFirst d ps

/-- One step of building `matches_by_document`
(legal_classify.py lines 327-338). -/
def groupStep (acc : List (String × GroupEntry)) (m : ClauseMatch) :
    List (String × GroupEntry) :=
  let doc_id := m.citation.document_id
  if acc.any (fun p => p.1 = doc_id) then bumpFirst doc_id acc
  else acc ++ [(doc_id, ⟨m.citation.formatted, 1⟩)]

/-- `matches_by_document` (legal_classify.py lines 327-338). -/
def matches_by_document (ms : List ClauseMatch) : List (String × GroupEntry) :=
  ms.foldl groupStep []

/-- The `_usage_hint` string (legal_classify.py lines 340-354). -/
def classifyUsageHint (all_matches : List ClauseMatch)
    (grouped : List (String × GroupEntry)) : String :=
  if all_matches ≠ [] then
    if grouped.length > 1 then
      let doc_summary := String.intercalate ", "
        (grouped.map (fun p => p.2.filename ++ " (" ++ Nat.repr p.2.count ++ ")"))
      "Found " ++ Nat.repr all_matches.length ++ " total matches across "
        ++ Nat.repr grouped.length ++ " documents: " ++ doc_summary
        ++ ". List ALL matches grouped by document."
    else
      "Found " ++ Nat.repr all_matches.length ++ " matches in "
        ++ ((grouped.map (fun p => p.2.filename)).getD 0 "")
        ++ ". List ALL " ++ Nat.repr all_matches.length ++ " matches with citations."
  else ""

/-- `_legal_classify_async` (legal_classify.py lines 88-383), for a
configured environment, as a function of its backend oracles. -/
def _legal_classify_async (bk : ClassifyBackends) (matter_id clause_type : String) :
    ClassifyRun :=
  match bk.documents with
  | .error e => ⟨classifyFailOut clause_type (some e) none, []⟩
  | .ok (status, documents) =>
    if status ≠ 200 then
      ⟨classifyFailOut clause_type
          (some ("Failed to fetch documents: " ++ Nat.repr status)) none, []⟩
    else if documents = [] then
      ⟨classifyFailOut clause_type none (some "No documents found in matter"), []⟩
    else
      let q := iql_query clause_type
      let calls := (documents.filter
          (fun d => (d.extracted_text.getD "").trim ≠ "")).map
        (fun d => (q, d.extracted_text.getD ""))
      let all_matches := (documents.map (docMatches bk.classify_iql)).flatten
      let sorted := all_matches.mergeSort (fun a b => decide (b.score ≤ a.score))
      let grouped := matches_by_document sorted
      ⟨{ clause_type := clause_type
         matches_ := sorted
         total_found := sorted.length
         searched_documents := documents.length
         matches_by_document := grouped
         error := none
         message := none
         usage_hint := some (classifyUsageHint sorted grouped)
         instruction := some ("List ALL " ++ Nat.repr sorted.length
           ++ " matches found. If multiple documents, group by document name.") },
        calls⟩

/-- Fixture: backends for a search run whose hybrid RPC answers 500 and
whose legacy RPC answers 200. -/
def searchBackendsC4 : SearchBackends :=
  ⟨.ok [[1]], .ok (500, []), .ok (200, []), .ok [], []⟩

/-- Fixture: answer backends whose search succeeds with zero chunks. -/
def answerBackendsC6 : AnswerBackends :=
  ⟨.ok [[1]], .ok (200, []), .ok [], .ok ⟨none, none, none, none, none⟩⟩

/-- Fixtures for the C5 counterexample and witness. -/
def candA : Candidate := { chunk_id := some "a" }

def candB : Candidate := { content := some "b" }

def candOnly : Candidate :=
  { content := some "only chunk", chunk_id := some "c1", document_id := some "d1" }

/-- Answer backends retrieving exactly one chunk, whose reranker answers
successfully with score 1. -/
def answerBackendsC5 : AnswerBackends :=
  ⟨.ok [[1]], .ok (200, [candOnly]), .ok [⟨0, 1⟩],
    .ok ⟨none, none, none, none, none⟩⟩

/-- Search backends retrieving exactly one candidate. -/
def searchBackendsC5 : SearchBackends :=
  ⟨.ok [[1]], .ok (200, [candA]), .ok (200, []), .error "down", []⟩

/-- Search backends retrieving two candidates with a failing reranker. -/
def searchBackendsC5b : SearchBackends :=
  ⟨.ok [[1]], .ok (200, [candA, candB]), .ok (200, []), .error "down", []⟩

/-- Fixture: two ready documents for a classification run. -/
def classifyDocsC : List ClassifyDoc :=
  [⟨some "dX", some "X.pdf", some "alpha"⟩, ⟨some "dY", some "Y.pdf", some "beta"⟩]

/-- Fixture: an IQL oracle giving document `dX` two matches and document
`dY` one match. -/
def iqlOracleC : String → Except String IqlResult := fun t =>
  if t = "alpha" then
    .ok ⟨1, [⟨some "t1", some 0, some 2, some 1⟩, ⟨some "t2", some 3, some 5, some 1⟩]⟩
  else .ok ⟨1, [⟨some "t3", some 0, some 4, some 1⟩]⟩

/-- Fixture: classify backends over `classifyDocsC`. -/
def classifyBackendsC : ClassifyBackends := ⟨.ok (200, classifyDocsC), iqlOracleC⟩

/-! ## Theorems -/

theorem decimalDigits_lt (n : Nat) (h : n < 10) :
    decimalDigits n = [Nat.digitChar n] := by
  rw [decimalDigits]; simp [h]

theorem decimalDigits_ge (n : Nat) (h : ¬ n < 10) :
    decimalDigits n = decimalDigits (n / 10) ++ [Nat.digitChar (n % 10)] := by
  rw [decimalDigits]; simp [h]

/-- `Nat.toDigitsCore` with enough fuel agrees with `decimalDigits`. -/
theorem toDigitsCore_eq_decimalDigits :
    ∀ (n fuel : Nat) (ds : List Char), n < fuel →
      Nat.toDigitsCore 10 fuel n ds = decimalDigits n ++ ds := by
  intro n
  induction n using Nat.strong_induction_on with
  | _ n ih =>
    intro fuel ds hfuel
    match fuel, hfuel with
    | fuel + 1, hfuel =>
      show (if n / 10 = 0 then Nat.digitChar (n % 10) :: ds
            else Nat.toDigitsCore 10 fuel (n / 10) (Nat.digitChar (n % 10) :: ds))
            = decimalDigits n ++ ds
      by_cases h10 : n < 10
      · have hdiv : n / 10 = 0 := Nat.div_eq_of_lt h10
        have hmod : n % 10 = n := Nat.mod_eq_of_lt h10
        simp [hdiv, hmod, decimalDigits_lt n h10]
      · have hdiv : n / 10 ≠ 0 := by
          intro h; exact h10 (by omega)
        have hlt : n / 10 < n := Nat.div_lt_self (by omega) (by omega)
        have hfuel' : n / 10 < fuel := by omega
        simp only [hdiv, if_false]
        rw [ih (n / 10) hlt fuel (Nat.digitChar (n % 10) :: ds) hfuel',
          decimalDigits_ge n h10]
        simp

/-- The characters of `Nat.repr n` are exactly `decimalDigits n`. -/
theorem repr_data (n : Nat) : (Nat.repr n).data = decimalDigits n := by
  show Nat.toDigitsCore 10 (n + 1) n [] = decimalDigits n
  rw [toDigitsCore_eq_decimalDigits n (n + 1) [] (Nat.lt_succ_self n)]
  simp

theorem digitChar_isDigit (m : Nat) (h : m < 10) : (Nat.digitChar m).isDigit := by
  interval_cases m <;> decide

theorem digitChar_val (m : Nat) (h : m < 10) : (Nat.digitChar m).toNat - 48 = m := by
  interval_cases m <;> decide

theorem decimalDigits_isDigit (n : Nat) : ∀ c ∈ decimalDigits n, c.isDigit := by
  induction n using Nat.strong_induction_on with
  | _ n ih =>
    by_cases h : n < 10
    · rw [decimalDigits_lt n h]
      intro c hc
      simp at hc
      exact hc ▸ digitChar_isDigit n h
    · rw [decimalDigits_ge n h]
      intro c hc
      rcases List.mem_append.mp hc with h1 | h2
      · exact ih (n / 10) (Nat.div_lt_self (by omega) (by omega)) c h1
      · simp at h2
        exact h2 ▸ digitChar_isDigit (n % 10) (Nat.mod_lt n (by omega))

theorem decimalDigits_ne_nil (n : Nat) : decimalDigits n ≠ [] := by
  by_cases h : n < 10
  · rw [decimalDigits_lt n h]; simp
  · rw [decimalDigits_ge n h]; simp

theorem parseNatAux_append (acc : Nat) (xs ys : List Char) :
    parseNatAux acc (xs ++ ys)
      = match parseNatAux acc xs with
        | none => none
        | some a => parseNatAux a ys := by
  induction xs generalizing acc with
  | nil => simp [parseNatAux]
  | cons c cs ih =>
    simp only [List.cons_append, parseNatAux]
    by_cases h : c.isDigit <;> simp [h, ih]

theorem parseNatAux_decimalDigits (n : Nat) :
    ∀ acc : Nat, parseNatAux acc (decimalDigits n)
      = some (acc * 10 ^ (decimalDigits n).length + n) := by
  induction n using Nat.strong_induction_on with
  | _ n ih =>
    intro acc
    by_cases h : n < 10
    · rw [decimalDigits_lt n h]
      simp [parseNatAux, digitChar_isDigit n h, digitChar_val n h]
      ring
    · rw [decimalDigits_ge n h]
      rw [parseNatAux_append]
      rw [ih (n / 10) (Nat.div_lt_self (by omega) (by omega)) acc]
      have hm : n % 10 < 10 := Nat.mod_lt n (by omega)
      simp [parseNatAux, digitChar_isDigit _ hm, digitChar_val _ hm]
      have : 10 * (acc * 10 ^ (decimalDigits (n / 10)).length + n / 10) + n % 10
          = acc * (10 ^ (decimalDigits (n / 10)).length * 10) + (10 * (n / 10) + n % 10) := by
        ring
      rw [this, Nat.div_add_mod]
      ring_nf

theorem parseNatChars_decimalDigits (n : Nat) :
    parseNatChars (decimalDigits n) = some n := by
  have hne := decimalDigits_ne_nil n
  match hd : decimalDigits n with
  | [] => exact absurd hd hne
  | c :: cs =>
    show parseNatAux 0 (c :: cs) = some n
    have := parseNatAux_decimalDigits n 0
    rw [hd] at this
    simpa using this

theorem splitFirst_not_mem (sep : Char) (l : List Char) (h : sep ∉ l) :
    splitFirst sep l = none := by
  induction l with
  | nil => rfl
  | cons c cs ih =>
    simp only [List.mem_cons, not_or] at h
    simp [splitFirst, Ne.symm h.1, ih h.2]

theorem splitFirst_append (sep : Char) (l r : List Char) (h : sep ∉ l) :
    splitFirst sep (l ++ sep :: r) = some (l, r) := by
  induction l with
  | nil => simp [splitFirst]
  | cons c cs ih =>
    simp only [List.mem_cons, not_or] at h
    simp [splitFirst, Ne.symm h.1, ih h.2]

theorem parseOffsets_repr (s e : Nat) :
    parseOffsets ((Nat.repr s).data ++ '-' :: (Nat.repr e).data)
      = some (s, e) := by
  have hs := repr_data s
  have he := repr_data e
  have hnd : '-' ∉ (Nat.repr s).data := by
    rw [hs]
    intro hmem
    have := decimalDigits_isDigit s _ hmem
    simp [Char.isDigit] at this
  unfold parseOffsets
  rw [splitFirst_append '-' _ _ hnd, hs, he]
  simp [parseNatChars_decimalDigits]

theorem not_mem_repr (c : Char) (n : Nat) (hc : ¬ c.isDigit) :
    c ∉ (Nat.repr n).data := by
  rw [repr_data]
  intro hmem
  exact hc (decimalDigits_isDigit n c hmem)

theorem parsePermalinkChars_cite (rest : List Char) :
    parsePermalinkChars ('c' :: 'i' :: 't' :: 'e' :: ':' :: rest)
      = parseCiteBody rest := rfl

theorem data_cite_concat (s : String) :
    ("cite:" ++ s).data = 'c' :: 'i' :: 't' :: 'e' :: ':' :: s.data := by
  simp

/-- Round-trip for `legal_answer`'s permalink form. -/
theorem parse_answerPermalink (doc chunk : String) (s e : Nat)
    (hd : idOk doc) (hc : idOk chunk) :
    parsePermalink (answerPermalink doc chunk s e)
      = some ⟨doc, some chunk, some (s, e)⟩ := by
  have hrest : ("cite:" ++ doc ++ "#" ++ chunk ++ "@"
        ++ Nat.repr s ++ "-" ++ Nat.repr e)
      = "cite:" ++ (doc ++ "#" ++ chunk ++ "@" ++ Nat.repr s ++ "-" ++ Nat.repr e) := by
    simp [String.append_assoc]
  unfold parsePermalink answerPermalink
  rw [hrest, data_cite_concat, parsePermalinkChars_cite]
  have hdata : (doc ++ "#" ++ chunk ++ "@" ++ Nat.repr s ++ "-" ++ Nat.repr e).data
      = doc.data ++ '#' :: (chunk.data ++ '@'
          :: ((Nat.repr s).data ++ '-' :: (Nat.repr e).data)) := by
    simp
  rw [hdata]
  unfold parseCiteBody
  simp only [splitFirst_append '#' _ _ hd.1]
  simp only [splitFirst_append '@' _ _ hc.2]
  simp only [parseOffsets_repr]
  rfl

/-- Round-trip for `legal_classify`'s permalink form. -/
theorem parse_classifyPermalink (doc : String) (s e : Nat) (hd : idOk doc) :
    parsePermalink (classifyPermalink doc s e)
      = some ⟨doc, none, some (s, e)⟩ := by
  have hrest : ("cite:" ++ doc ++ "@" ++ Nat.repr s ++ "-" ++ Nat.repr e)
      = "cite:" ++ (doc ++ "@" ++ Nat.repr s ++ "-" ++ Nat.repr e) := by
    simp [String.append_assoc]
  unfold parsePermalink classifyPermalink
  rw [hrest, data_cite_concat, parsePermalinkChars_cite]
  have hdata : (doc ++ "@" ++ Nat.repr s ++ "-" ++ Nat.repr e).data
      = doc.data ++ '@' :: ((Nat.repr s).data ++ '-' :: (Nat.repr e).data) := by
    simp
  rw [hdata]
  unfold parseCiteBody
  have hnoHash : '#' ∉ doc.data ++ '@'
      :: ((Nat.repr s).data ++ '-' :: (Nat.repr e).data) := by
    intro hmem
    rcases List.mem_append.mp hmem with h1 | h2
    · exact hd.1 h1
    · rcases List.mem_cons.mp h2 with h3 | h4
      · exact absurd h3 (by decide)
      · rcases List.mem_append.mp h4 with h5 | h6
        · exact not_mem_repr '#' s (by decide) h5
        · rcases List.mem_cons.mp h6 with h7 | h8
          · exact absurd h7 (by decide)
          · exact not_mem_repr '#' e (by decide) h8
  simp only [splitFirst_not_mem '#' _ hnoHash]
  simp only [splitFirst_append '@' _ _ hd.2]
  simp only [parseOffsets_repr]
  rfl

/-- Round-trip for `_format_search_result`'s permalink, chunk branch. -/
theorem parse_searchPermalink_chunk (doc chunk : String)
    (hd : idOk doc) (hc : idOk chunk) (hne : chunk ≠ "") :
    parsePermalink (searchPermalink doc chunk)
      = some ⟨doc, some chunk, none⟩ := by
  unfold parsePermalink searchPermalink
  rw [if_pos hne]
  have hrest : ("cite:" ++ doc ++ "#" ++ chunk)
      = "cite:" ++ (doc ++ "#" ++ chunk) := by
    simp [String.append_assoc]
  rw [hrest, data_cite_concat, parsePermalinkChars_cite]
  have hdata : (doc ++ "#" ++ chunk).data = doc.data ++ '#' :: chunk.data := by
    simp
  rw [hdata]
  unfold parseCiteBody
  simp only [splitFirst_append '#' _ _ hd.1]
  simp only [splitFirst_not_mem '@' _ hc.2]

/-- Round-trip for `_format_search_result`'s permalink, document branch. -/
theorem parse_searchPermalink_doc (doc : String) (hd : idOk doc) :
    parsePermalink (searchPermalink doc "")
      = some ⟨doc, none, none⟩ := by
  unfold parsePermalink searchPermalink
  rw [if_neg (by simp)]
  rw [data_cite_concat, parsePermalinkChars_cite]
  unfold parseCiteBody
  simp only [splitFirst_not_mem '#' _ hd.1]
  simp only [splitFirst_not_mem '@' _ hd.2]

/-! ## Helper lemmas about the pipelines -/

theorem extractCallBinds_eq_false : extractCallBinds = false := by decide

/-- With the extract call never binding, the extract step of
`_legal_answer_async` always returns a `found=False` dictionary. -/
theorem answerExtractStep_fail (bk : AnswerBackends) (question : String)
    (chunks : List Candidate) :
    ∃ msg, answerExtractStep bk question chunks = answerFail msg := by
  unfold answerExtractStep
  rw [extractCallBinds_eq_false]
  dsimp only
  by_cases h : (chunks.take 3).filter (fun c => (c.content.getD "").trim ≠ "") = []
  · refine ⟨"No readable content found in relevant documents", ?_⟩
    rw [if_pos h]
  · refine ⟨"Could not extract a specific answer from the documents", ?_⟩
    rw [if_neg h]
    rfl

/-- C1: the end-to-end answer scenario cannot succeed: for every backend
behaviour (the embedding, search, rerank and extraction oracles answering
arbitrarily, including exactly per their contracts), `_legal_answer_async`
returns `found=False`.  The call
`client.extract(query=..., texts=..., model=..., top_k=...,
ignore_inextractability=...)` (legal_answer.py lines 247-253) does not
bind to `IsaacusClient.extract(self, question, context, model)`
(isaacus_client.py line 133), so Python raises `TypeError` inside the
`try` of lines 245-276; the `except` swallows it, `best_answer` stays
`None`, and line 280 returns the `found=False` dictionary. -/
theorem legal_answer_never_found (bk : AnswerBackends) (matter_id question : String) :
    (_legal_answer_async bk matter_id question).output.found = false := by
  unfold _legal_answer_async
  match hembed : bk.embed with
  | .error e => simp [answerFail]
  | .ok embeddings =>
    by_cases hne : embeddings = []
    · simp [hne, answerFail]
    · simp only [hne, if_false]
      match hsearch : bk.search with
      | .error e => simp [answerFail]
      | .ok (status, chunks) =>
        by_cases hst : status ≠ 200
        · simp [hst, answerFail]
        · simp only [hst, if_false]
          by_cases hch : chunks = []
          · simp [hch, answerFail]
          · simp only [hch, if_false]
            obtain ⟨msg, hmsg⟩ := answerExtractStep_fail bk question
              (answerRerankStep bk.rerank chunks)
            simp [hmsg, answerFail]

/-- C10: when the extraction SDK response lacks `confidence`, `start` and
`end`, `IsaacusClient.extract` defaults them to `1.0`, `0` and
`len(context)` — offsets spanning the whole supplied context with
confidence 1.0 (isaacus_client.py lines 160-166). -/
theorem extract_missing_fields_default (response : IsaacusClient.QAResponse)
    (context : String)
    (h : response.confidence = none ∧ response.start = none ∧ response.end_ = none) :
    IsaacusClient.extract response context
      = { answer := response.answer, confidence := 1, start := 0
          end_ := context.length } := by
  obtain ⟨h1, h2, h3⟩ := h
  simp [IsaacusClient.extract, h1, h2, h3]

/-- Witness for `extract_missing_fields_default` at a concrete response
and context. -/
theorem extract_missing_fields_default_witness :
    IsaacusClient.extract ⟨"30 days", none, none, none⟩
        "The notice period is 30 days."
      = { answer := "30 days", confidence := 1, start := 0, end_ := 29 } :=
  (extract_missing_fields_default ⟨"30 days", none, none, none⟩
      "The notice period is 30 days." ⟨rfl, rfl, rfl⟩).trans (by decide)

/-- C3: when the hybrid-search backend answers with a non-success status,
the tools return a structured dictionary instead of propagating anything:
`_isaacus_search_async` (after the legacy retry also fails, or when the
RPC call itself raises) returns the empty-results dictionary with an
`error` field, and `_legal_answer_async` returns a `found=False`
dictionary with an `error` field.  The embedded pipelines are total
functions of their oracles — every exception a backend raises
(`Except.error`) is mapped to such a structured value by the outermost
`except` handlers (isaacus_search.py lines 323-332, legal_answer.py lines
339-347), which is the no-escape property. -/
theorem search_degradation_structured :
    (∀ (bk : SearchBackends) (mid q : String) (mr : Nat) (th sw : Score)
        (ic : Bool) (em : List (List Score)) (hst : Nat)
        (hb : List Candidate) (lst : Nat) (lb : List Candidate),
      bk.embed = .ok em → em ≠ [] →
      bk.hybrid = .ok (hst, hb) → hst ≠ 200 →
      bk.legacy = .ok (lst, lb) → lst ≠ 200 →
      (_isaacus_search_async bk mid q mr th sw ic).output
        = searchErrorOut q mid ("Supabase RPC error: " ++ Nat.repr lst))
    ∧ (∀ (bk : SearchBackends) (mid q : String) (mr : Nat) (th sw : Score)
        (ic : Bool) (em : List (List Score)) (e : String),
      bk.embed = .ok em → em ≠ [] →
      bk.hybrid = .error e →
      (_isaacus_search_async bk mid q mr th sw ic).output
        = searchErrorOut q mid e)
    ∧ (∀ (bk : AnswerBackends) (mid ques : String) (em : List (List Score))
        (st : Nat) (ch : List Candidate),
      bk.embed = .ok em → em ≠ [] →
      bk.search = .ok (st, ch) → st ≠ 200 →
      (_legal_answer_async bk mid ques).output
        = answerFail "Search failed" (some ("Search error: " ++ Nat.repr st))) := by
  refine ⟨?_, ?_, ?_⟩
  · intro bk mid q mr th sw ic em hst hb lst lb hembed hne hhy hst200 hleg hlst200
    unfold _isaacus_search_async
    rw [hembed]
    simp only [hne, if_false, hhy, hst200, if_true]
    rw [hleg]
    simp [hst200, hlst200]
  · intro bk mid q mr th sw ic em e hembed hne hhy
    unfold _isaacus_search_async
    rw [hembed]
    simp only [hne, if_false, hhy]
  · intro bk mid ques em st ch hembed hne hsearch hst
    unfold _legal_answer_async
    rw [hembed]
    simp only [hne, if_false, hsearch]
    simp [hst]

/-- Witness for `search_degradation_structured`: concrete backends whose
hybrid RPC answers 500 (and whose legacy retry answers 404), and a
concrete answer backend whose search answers 500. -/
theorem search_degradation_structured_witness :
    (_isaacus_search_async
        ⟨.ok [[1]], .ok (500, []), .ok (404, []), .ok [], []⟩
        "m1" "q1" 5 (3/10) (7/10) true).output
      = searchErrorOut "q1" "m1" "Supabase RPC error: 404"
    ∧ (_legal_answer_async
        ⟨.ok [[1]], .ok (500, []), .ok [], .ok ⟨none, none, none, none, none⟩⟩
        "m1" "q2").output
      = answerFail "Search failed" (some "Search error: 500") :=
  ⟨search_degradation_structured.1
      ⟨.ok [[1]], .ok (500, []), .ok (404, []), .ok [], []⟩
      "m1" "q1" 5 (3/10) (7/10) true [[1]] 500 [] 404 []
      rfl (by decide) rfl (by decide) rfl (by decide),
    search_degradation_structured.2.2
      ⟨.ok [[1]], .ok (500, []), .ok [], .ok ⟨none, none, none, none, none⟩⟩
      "m1" "q2" [[1]] 500 []
      rfl (by decide) rfl (by decide)⟩

/-- The rerank step never changes which RPC requests were recorded. -/
theorem searchRerankStep_requests (bk : SearchBackends) (mid q : String)
    (mr : Nat) (hreq : Option HybridRequest) (lreq : Option LegacyRequest)
    (cands : List Candidate) :
    (searchRerankStep bk mid q mr hreq lreq cands).hybridRequest = hreq
    ∧ (searchRerankStep bk mid q mr hreq lreq cands).legacyRequest = lreq := by
  unfold searchRerankStep
  dsimp only
  constructor <;> (repeat' split) <;> rfl

/-- C4 (amended): the hybrid request asks the chunk store for
`min(3 × max_results, 20)` candidates — three times the desired count,
capped at 20 (isaacus_search.py line 207) — and when the hybrid endpoint
answers a non-success status, the legacy vector-only function is retried
with the same threshold and the same candidate count (lines 230-245). -/
theorem search_candidate_count_and_fallback
    (bk : SearchBackends) (mid q : String) (mr : Nat) (th sw : Score)
    (ic : Bool) (em : List (List Score)) (hst : Nat) (hb : List Candidate)
    (hembed : bk.embed = .ok em) (hne : em ≠ []) :
    (_isaacus_search_async bk mid q mr th sw ic).hybridRequest
      = some ⟨q, mid, sw, th, min (mr * 3) 20, ic⟩
    ∧ (bk.hybrid = .ok (hst, hb) → hst ≠ 200 →
        (_isaacus_search_async bk mid q mr th sw ic).legacyRequest
          = some ⟨mid, th, min (mr * 3) 20⟩) := by
  constructor
  · unfold _isaacus_search_async
    rw [hembed]
    simp only [hne, if_false]
    try dsimp only
    match hhy : bk.hybrid with
    | .error e => rfl
    | .ok (hstatus, hbody) =>
      try dsimp only
      by_cases h200 : hstatus ≠ 200
      · rw [if_pos h200]
        match hleg : bk.legacy with
        | .error e => rfl
        | .ok (lstatus, lbody) =>
          try dsimp only
          by_cases hl : lstatus ≠ 200
          · rw [if_pos hl]
            rfl
          · rw [if_neg hl]
            exact (searchRerankStep_requests ..).1
      · rw [if_neg h200]
        exact (searchRerankStep_requests ..).1
  · intro hhy h200
    unfold _isaacus_search_async
    rw [hembed]
    simp only [hne, if_false]
    try dsimp only
    rw [hhy]
    try dsimp only
    rw [if_pos h200]
    match hleg : bk.legacy with
    | .error e => rfl
    | .ok (lstatus, lbody) =>
      try dsimp only
      by_cases hl : lstatus ≠ 200
      · rw [if_pos hl]
        rfl
      · rw [if_neg hl]
        exact (searchRerankStep_requests ..).2

/-- C4 counterexample: with `max_results = 7` the hybrid request asks for
`min(21, 20) = 20` candidates, not `3 × 7 = 21` as the claim states. -/
theorem search_three_times_counterexample :
    ((_isaacus_search_async searchBackendsC4 "m1" "q1" 7 0 1
          true).hybridRequest.map (fun r => r.match_count)) = some 20
    ∧ some (20 : Nat) ≠ some (7 * 3) := by
  decide

/-- Witness for `search_candidate_count_and_fallback` at concrete
backends with `max_results = 7`. -/
theorem search_candidate_count_and_fallback_witness :
    (_isaacus_search_async searchBackendsC4 "m1" "q1" 7 0 1
        true).hybridRequest = some ⟨"q1", "m1", 1, 0, 20, true⟩
    ∧ (_isaacus_search_async searchBackendsC4 "m1" "q1" 7 0 1
        true).legacyRequest = some ⟨"m1", 0, 20⟩ := by
  have h := search_candidate_count_and_fallback searchBackendsC4 "m1" "q1" 7
    0 1 true [[1]] 500 [] rfl (by decide)
  exact ⟨h.1.trans (by decide), (h.2 rfl (by decide)).trans (by decide)⟩

/-- Every exit of `_legal_answer_async` is a `found=False` dictionary of
the `answerFail` shape. -/
theorem legal_answer_fail_shape (bk : AnswerBackends) (mid ques : String) :
    ∃ msg err, (_legal_answer_async bk mid ques).output = answerFail msg err := by
  unfold _legal_answer_async
  match hembed : bk.embed with
  | .error e => exact ⟨_, _, rfl⟩
  | .ok embeddings =>
    by_cases hne : embeddings = []
    · refine ⟨"Failed to process question", none, ?_⟩
      simp [hne]
    · simp only [hne, if_false]
      match hsearch : bk.search with
      | .error e => exact ⟨_, _, rfl⟩
      | .ok (status, chunks) =>
        by_cases hst : status ≠ 200
        · refine ⟨"Search failed", some ("Search error: " ++ Nat.repr status), ?_⟩
          simp [hst]
        · simp only [hst, if_false]
          by_cases hch : chunks = []
          · refine ⟨"No relevant content found in documents", none, ?_⟩
            simp [hch]
          · simp only [hch, if_false]
            obtain ⟨msg, hmsg⟩ := answerExtractStep_fail bk ques
              (answerRerankStep bk.rerank chunks)
            exact ⟨msg, none, hmsg⟩

/-- C6: `_legal_answer_async` returns `found=False` with confidence 0.0
and citation `None` whenever the retrieval step returns no candidate
chunks (legal_answer.py lines 167-173), every retrieved chunk has blank
content — so the empty-content filter of lines 217-223 leaves nothing
(lines 225-231) — or the extraction call yields no answer (lines
280-286).  The third disjunct in fact holds on every run, because the
`client.extract(...)` call never binds (see `legal_answer_never_found`);
the listed branches are nevertheless each verified to return this exact
shape. -/
theorem legal_answer_found_false_cases (bk : AnswerBackends)
    (mid ques : String) (em : List (List Score)) (chunks : List Candidate)
    (hembed : bk.embed = .ok em) (hne : em ≠ [])
    (hsearch : bk.search = .ok (200, chunks))
    (hcond : chunks = []
      ∨ (∀ c ∈ chunks, (c.content.getD "").trim = "")
      ∨ (∀ r, bk.extractQA = .ok r → truthyStr r.answer = none)) :
    (_legal_answer_async bk mid ques).output.found = false
    ∧ (_legal_answer_async bk mid ques).output.confidence = 0
    ∧ (_legal_answer_async bk mid ques).output.citation = none := by
  obtain ⟨msg, err, hshape⟩ := legal_answer_fail_shape bk mid ques
  rw [hshape]
  exact ⟨rfl, rfl, rfl⟩

/-- Witness for `legal_answer_found_false_cases`: a run whose retrieval
returns no candidate chunks. -/
theorem legal_answer_found_false_cases_witness :
    (_legal_answer_async answerBackendsC6 "m1" "q1").output.found = false
    ∧ (_legal_answer_async answerBackendsC6 "m1" "q1").output.confidence = 0
    ∧ (_legal_answer_async answerBackendsC6 "m1" "q1").output.citation = none :=
  legal_answer_found_false_cases answerBackendsC6 "m1" "q1" [[1]] []
    rfl (by decide) rfl (Or.inl rfl)

/-- C5 (amended): in `isaacus_search` a single-element candidate list
skips reranking entirely (the reranker is never invoked, the single
result carries no rerank score, `reranked=False`; isaacus_search.py lines
304-306); in `legal_answer` the reranker is invoked whenever any chunks
were retrieved — even for a single chunk, which then gets a rerank score
on success (lines 186-208, no length guard).  In both pipelines a rerank
failure degrades to the original retrieval order truncated to `top_k`
(`max_results` in `isaacus_search`, 5 in `legal_answer`) without aborting
the pipeline. -/
theorem rerank_skip_and_degradation :
    (∀ (bk : SearchBackends) (mid q : String) (mr : Nat) (th sw : Score)
        (ic : Bool) (em : List (List Score)) (c : Candidate),
      bk.embed = .ok em → em ≠ [] → bk.hybrid = .ok (200, [c]) →
      (_isaacus_search_async bk mid q mr th sw ic).rerankCalled = false
      ∧ (_isaacus_search_async bk mid q mr th sw ic).output.results
          = [_format_search_result c none]
      ∧ (_isaacus_search_async bk mid q mr th sw ic).output.reranked = false)
    ∧ (∀ (bk : SearchBackends) (mid q : String) (mr : Nat) (th sw : Score)
        (ic : Bool) (em : List (List Score)) (cands : List Candidate)
        (err : String),
      bk.embed = .ok em → em ≠ [] → bk.hybrid = .ok (200, cands) →
      cands.length > 1 → bk.rerank = .error err →
      (_isaacus_search_async bk mid q mr th sw ic).output.results
          = (cands.take mr).map (fun row => _format_search_result row none)
      ∧ (_isaacus_search_async bk mid q mr th sw ic).output.reranked = false)
    ∧ (∀ (err : String) (chunks : List Candidate),
      answerRerankStep (.error err) chunks = chunks.take 5)
    ∧ (∀ (bk : AnswerBackends) (mid ques : String) (em : List (List Score))
        (chunks : List Candidate),
      bk.embed = .ok em → em ≠ [] → bk.search = .ok (200, chunks) →
      chunks ≠ [] →
      (_legal_answer_async bk mid ques).rerankCalled = true) := by
  refine ⟨?_, ?_, ?_, ?_⟩
  · intro bk mid q mr th sw ic em c hembed hne hhy
    unfold _isaacus_search_async
    rw [hembed]
    simp only [hne, if_false]
    try dsimp only
    rw [hhy]
    try dsimp only
    rw [if_neg (by omega : ¬ (200 : Nat) ≠ 200)]
    unfold searchRerankStep
    try dsimp only
    rw [if_neg (by simp : ¬ ([c] : List Candidate) = [])]
    rw [if_neg (by simp : ¬ ([c] : List Candidate).length > 1)]
    exact ⟨rfl, rfl, rfl⟩
  · intro bk mid q mr th sw ic em cands err hembed hne hhy hlen hrr
    unfold _isaacus_search_async
    rw [hembed]
    simp only [hne, if_false]
    try dsimp only
    rw [hhy]
    try dsimp only
    rw [if_neg (by omega : ¬ (200 : Nat) ≠ 200)]
    unfold searchRerankStep
    try dsimp only
    rw [if_neg (by rintro rfl; simp at hlen : ¬ cands = [])]
    rw [if_pos hlen, hrr]
    exact ⟨rfl, rfl⟩
  · intro err chunks
    rfl
  · intro bk mid ques em chunks hembed hne hsearch hchunks
    unfold _legal_answer_async
    rw [hembed]
    simp only [hne, if_false]
    try dsimp only
    rw [hsearch]
    try dsimp only
    rw [if_neg (by omega : ¬ (200 : Nat) ≠ 200), if_neg hchunks]

/-- C5 counterexample: in `legal_answer` a single-chunk candidate list
does not skip reranking — the reranker is invoked and the chunk is
assigned `rerank_score` 1. -/
theorem rerank_single_skip_counterexample :
    (_legal_answer_async answerBackendsC5 "m1" "q1").rerankCalled = true
    ∧ (_legal_answer_async answerBackendsC5 "m1" "q1").chunksAfterRerank.map
        (fun c => c.rerank_score) = [some 1] := by
  decide

/-- Witness for `rerank_skip_and_degradation`, instantiating each
conjunct at concrete backends. -/
theorem rerank_skip_and_degradation_witness :
    ((_isaacus_search_async searchBackendsC5 "m1" "q1" 5 0 1 true).rerankCalled
        = false
      ∧ (_isaacus_search_async searchBackendsC5 "m1" "q1" 5 0 1 true).output.results
        = [_format_search_result candA none]
      ∧ (_isaacus_search_async searchBackendsC5 "m1" "q1" 5 0 1 true).output.reranked
        = false)
    ∧ ((_isaacus_search_async searchBackendsC5b "m1" "q1" 1 0 1 true).output.results
        = ([candA, candB].take 1).map (fun row => _format_search_result row none)
      ∧ (_isaacus_search_async searchBackendsC5b "m1" "q1" 1 0 1 true).output.reranked
        = false)
    ∧ answerRerankStep (.error "down") [candA, candB] = [candA, candB].take 5
    ∧ (_legal_answer_async answerBackendsC5 "m1" "q1").rerankCalled = true :=
  ⟨rerank_skip_and_degradation.1 searchBackendsC5 "m1" "q1" 5 0 1 true [[1]]
      candA rfl (by decide) rfl,
    rerank_skip_and_degradation.2.1 searchBackendsC5b "m1" "q1" 1 0 1 true [[1]]
      [candA, candB] "down" rfl (by decide) rfl (by decide) rfl,
    rerank_skip_and_degradation.2.2.1 "down" [candA, candB],
    rerank_skip_and_degradation.2.2.2 answerBackendsC5 "m1" "q1" [[1]]
      [candOnly] rfl (by decide) rfl (by decide)⟩

/-! ## Grouping lemmas for `matches_by_document` -/

theorem bumpFirst_counts (d : String) :
    ∀ acc : List (String × GroupEntry),
      acc.any (fun p => p.1 = d) →
      ((bumpFirst d acc).map (fun p => p.2.count)).sum
        = (acc.map (fun p => p.2.count)).sum + 1 := by
  intro acc h
  induction acc with
  | nil => simp at h
  | cons p ps ih =>
    by_cases hp : p.1 = d
    · simp [bumpFirst, hp]
      omega
    · have h' : ps.any (fun p => p.1 = d) := by
        simpa [hp] using h
      simp [bumpFirst, hp, ih h']
      omega

theorem bumpFirst_keys (d : String) (acc : List (String × GroupEntry)) :
    (bumpFirst d acc).map Prod.fst = acc.map Prod.fst := by
  induction acc with
  | nil => rfl
  | cons p ps ih =>
    by_cases hp : p.1 = d <;> simp [bumpFirst, hp, ih]

theorem groupStep_counts (acc : List (String × GroupEntry)) (m : ClauseMatch) :
    ((groupStep acc m).map (fun p => p.2.count)).sum
      = (acc.map (fun p => p.2.count)).sum + 1 := by
  unfold groupStep
  by_cases h : acc.any (fun p => p.1 = m.citation.document_id)
  · rw [if_pos h]
    exact bumpFirst_counts _ acc h
  · rw [if_neg h]
    simp

theorem groupStep_keys_mono (acc : List (String × GroupEntry)) (m : ClauseMatch)
    (k : String) (hk : k ∈ acc.map Prod.fst) :
    k ∈ (groupStep acc m).map Prod.fst := by
  unfold groupStep
  by_cases h : acc.any (fun p => p.1 = m.citation.document_id)
  · rw [if_pos h, bumpFirst_keys]
    exact hk
  · rw [if_neg h]
    simp only [List.map_append]
    exact List.mem_append_left _ hk

theorem groupStep_mem_self (acc : List (String × GroupEntry)) (m : ClauseMatch) :
    m.citation.document_id ∈ (groupStep acc m).map Prod.fst := by
  unfold groupStep
  by_cases h : acc.any (fun p => p.1 = m.citation.document_id)
  · rw [if_pos h, bumpFirst_keys]
    obtain ⟨p, hp, hpd⟩ := List.any_eq_true.mp h
    simp only [decide_eq_true_eq] at hpd
    exact hpd ▸ List.mem_map_of_mem Prod.fst hp
  · rw [if_neg h]
    simp

theorem foldl_groupStep_counts :
    ∀ (ms : List ClauseMatch) (acc : List (String × GroupEntry)),
      ((ms.foldl groupStep acc).map (fun p => p.2.count)).sum
        = (acc.map (fun p => p.2.count)).sum + ms.length := by
  intro ms
  induction ms with
  | nil => intro acc; simp
  | cons m ms ih =>
    intro acc
    simp only [List.foldl_cons, List.length_cons]
    rw [ih (groupStep acc m), groupStep_counts]
    omega

theorem foldl_groupStep_keys_mono :
    ∀ (ms : List ClauseMatch) (acc : List (String × GroupEntry)) (k : String),
      k ∈ acc.map Prod.fst → k ∈ (ms.foldl groupStep acc).map Prod.fst := by
  intro ms
  induction ms with
  | nil => intro acc k hk; exact hk
  | cons m ms ih =>
    intro acc k hk
    exact ih (groupStep acc m) k (groupStep_keys_mono acc m k hk)

theorem foldl_groupStep_mem :
    ∀ (ms : List ClauseMatch) (acc : List (String × GroupEntry))
      (m : ClauseMatch), m ∈ ms →
      m.citation.document_id ∈ (ms.foldl groupStep acc).map Prod.fst := by
  intro ms
  induction ms with
  | nil => intro acc m hm; simp at hm
  | cons m0 ms ih =>
    intro acc m hm
    rcases List.mem_cons.mp hm with rfl | hm'
    · exact foldl_groupStep_keys_mono ms (groupStep acc m) m.citation.document_id
        (groupStep_mem_self acc m)
    · exact ih (groupStep acc m0) m hm'

theorem matches_by_document_counts (ms : List ClauseMatch) :
    ((matches_by_document ms).map (fun p => p.2.count)).sum = ms.length := by
  unfold matches_by_document
  rw [foldl_groupStep_counts ms []]
  simp

theorem matches_by_document_mem (ms : List ClauseMatch) (m : ClauseMatch)
    (hm : m ∈ ms) :
    m.citation.document_id ∈ (matches_by_document ms).map Prod.fst :=
  foldl_groupStep_mem ms [] m hm

/-- Characterization of a `_legal_classify_async` run whose documents
query succeeds with a non-empty document list. -/
theorem legal_classify_run (bk : ClassifyBackends) (mid ct : String)
    (docs : List ClassifyDoc) (hdocs : bk.documents = .ok (200, docs))
    (hne : docs ≠ []) :
    _legal_classify_async bk mid ct =
      ⟨{ clause_type := ct
         matches_ := ((docs.map (docMatches bk.classify_iql)).flatten).mergeSort
           (fun a b => decide (b.score ≤ a.score))
         total_found := (((docs.map (docMatches bk.classify_iql)).flatten).mergeSort
           (fun a b => decide (b.score ≤ a.score))).length
         searched_documents := docs.length
         matches_by_document := matches_by_document
           (((docs.map (docMatches bk.classify_iql)).flatten).mergeSort
             (fun a b => decide (b.score ≤ a.score)))
         error := none
         message := none
         usage_hint := some (classifyUsageHint
           (((docs.map (docMatches bk.classify_iql)).flatten).mergeSort
             (fun a b => decide (b.score ≤ a.score)))
           (matches_by_document
             (((docs.map (docMatches bk.classify_iql)).flatten).mergeSort
               (fun a b => decide (b.score ≤ a.score)))))
         instruction := some ("List ALL "
           ++ Nat.repr (((docs.map (docMatches bk.classify_iql)).flatten).mergeSort
             (fun a b => decide (b.score ≤ a.score))).length
           ++ " matches found. If multiple documents, group by document name.") },
        (docs.filter (fun d => (d.extracted_text.getD "").trim ≠ "")).map
          (fun d => (iql_query ct, d.extracted_text.getD ""))⟩ := by
  unfold _legal_classify_async
  rw [hdocs]
  dsimp only
  rw [if_neg (by omega : ¬ (200 : Nat) ≠ 200), if_neg hne]

/-- C2: for every `legal_classify` run (with a successful documents
query), `total_found` equals the length of the returned `matches` list,
every match's document appears in the `matches_by_document` grouping, and
the per-document counts in the grouping sum to `total_found` — no match
is dropped (legal_classify.py lines 323-371). -/
theorem classify_completeness (bk : ClassifyBackends) (mid ct : String)
    (docs : List ClassifyDoc) (hdocs : bk.documents = .ok (200, docs))
    (hne : docs ≠ []) :
    (_legal_classify_async bk mid ct).output.total_found
      = (_legal_classify_async bk mid ct).output.matches_.length
    ∧ (∀ m ∈ (_legal_classify_async bk mid ct).output.matches_,
        m.citation.document_id
          ∈ (_legal_classify_async bk mid ct).output.matches_by_document.map Prod.fst)
    ∧ ((_legal_classify_async bk mid ct).output.matches_by_document.map
        (fun p => p.2.count)).sum
      = (_legal_classify_async bk mid ct).output.total_found := by
  rw [legal_classify_run bk mid ct docs hdocs hne]
  dsimp only
  refine ⟨rfl, ?_, ?_⟩
  · intro m hm
    exact matches_by_document_mem _ m hm
  · rw [matches_by_document_counts]

/-- Witness for `classify_completeness` at concrete backends. -/
theorem classify_completeness_witness :
    (_legal_classify_async classifyBackendsC "m1" "termination clause").output.total_found
      = (_legal_classify_async classifyBackendsC "m1" "termination clause").output.matches_.length
    ∧ (∀ m ∈ (_legal_classify_async classifyBackendsC "m1" "termination clause").output.matches_,
        m.citation.document_id
          ∈ (_legal_classify_async classifyBackendsC "m1" "termination clause").output.matches_by_document.map Prod.fst)
    ∧ ((_legal_classify_async classifyBackendsC "m1" "termination clause").output.matches_by_document.map
        (fun p => p.2.count)).sum
      = (_legal_classify_async classifyBackendsC "m1" "termination clause").output.total_found :=
  classify_completeness classifyBackendsC "m1" "termination clause"
    classifyDocsC rfl (by decide)

/-- Every match `docMatches` produces carries a permalink built by
`classifyPermalink` from its own absolute offsets, which come from an IQL
match of the classifier's response for that document's full text. -/
theorem docMatches_mem (iql : String → Except String IqlResult)
    (d : ClassifyDoc) (m : ClauseMatch) (hm : m ∈ docMatches iql d) :
    m.citation.permalink
      = classifyPermalink m.citation.document_id m.citation.start m.citation.end_
    ∧ ∃ res, iql (d.extracted_text.getD "") = .ok res
        ∧ ∃ im ∈ res.matches_,
          m.citation.document_id = d.id.getD ""
          ∧ m.citation.start = im.start_index.getD 0
          ∧ m.citation.end_ = im.end_index.getD (im.text.getD "").length
          ∧ m.text = im.text.getD "" := by
  unfold docMatches at hm
  by_cases ht : (d.extracted_text.getD "").trim = ""
  · rw [if_pos ht] at hm
    simp at hm
  · rw [if_neg ht] at hm
    match hres : iql (d.extracted_text.getD "") with
    | .error e =>
        rw [hres] at hm
        simp at hm
    | .ok res =>
        rw [hres] at hm
        obtain ⟨im, him, heq⟩ := List.mem_map.mp hm
        subst heq
        exact ⟨rfl, res, rfl, im, him, rfl, rfl, rfl, rfl⟩

/-- C8: a `legal_classify` run (with a successful documents query)
compiles the clause description into the IQL expression
`{IS <clause_type>}` (line 268), invokes `classify_iql` exactly on each
selected document's full extracted text (lines 271-285), builds each
match's permalink as `cite:<document_id>@<start>-<end>` from that match's
absolute offsets (lines 294-315), and returns the matches sorted by score
descending across all documents (line 324). -/
theorem classify_iql_pipeline (bk : ClassifyBackends) (mid ct : String)
    (docs : List ClassifyDoc) (hdocs : bk.documents = .ok (200, docs))
    (hne : docs ≠ []) :
    iql_query ct = "\x7bIS " ++ ct ++ "\x7d"
    ∧ (_legal_classify_async bk mid ct).classifyCalls
        = (docs.filter (fun d => (d.extracted_text.getD "").trim ≠ "")).map
            (fun d => (iql_query ct, d.extracted_text.getD ""))
    ∧ (∀ m ∈ (_legal_classify_async bk mid ct).output.matches_,
        m.citation.permalink
          = classifyPermalink m.citation.document_id m.citation.start m.citation.end_
        ∧ ∃ d ∈ docs, ∃ res, bk.classify_iql (d.extracted_text.getD "") = .ok res
            ∧ ∃ im ∈ res.matches_,
              m.citation.document_id = d.id.getD ""
              ∧ m.citation.start = im.start_index.getD 0
              ∧ m.citation.end_ = im.end_index.getD (im.text.getD "").length
              ∧ m.text = im.text.getD "")
    ∧ (_legal_classify_async bk mid ct).output.matches_.Pairwise
        (fun a b => b.score ≤ a.score) := by
  refine ⟨rfl, ?_, ?_, ?_⟩
  · rw [legal_classify_run bk mid ct docs hdocs hne]
  · intro m hm
    rw [legal_classify_run bk mid ct docs hdocs hne] at hm
    dsimp only at hm
    have hm' : m ∈ (docs.map (docMatches bk.classify_iql)).flatten :=
      (List.mergeSort_perm _ _).subset hm
    obtain ⟨l, hl, hml⟩ := List.mem_flatten.mp hm'
    obtain ⟨d, hd, hld⟩ := List.mem_map.mp hl
    subst hld
    obtain ⟨hperm, res, hres, im, him, hrest⟩ := docMatches_mem bk.classify_iql d m hml
    exact ⟨hperm, d, hd, res, hres, im, him, hrest⟩
  · rw [legal_classify_run bk mid ct docs hdocs hne]
    dsimp only
    have hs := @List.sorted_mergeSort ClauseMatch
      (fun a b => decide (b.score ≤ a.score))
      (fun a b c hab hbc => by
        simp only [decide_eq_true_eq] at *
        exact le_trans hbc hab)
      (fun a b => by
        simp only [Bool.or_eq_true, decide_eq_true_eq]
        exact le_total b.score a.score)
      ((docs.map (docMatches bk.classify_iql)).flatten)
    exact hs.imp (fun h => of_decide_eq_true h)

/-- Witness for `classify_iql_pipeline` at concrete backends. -/
theorem classify_iql_pipeline_witness :
    iql_query "termination clause" = "\x7bIS " ++ "termination clause" ++ "\x7d"
    ∧ (_legal_classify_async classifyBackendsC "m1" "termination clause").classifyCalls
        = (classifyDocsC.filter (fun d => (d.extracted_text.getD "").trim ≠ "")).map
            (fun d => (iql_query "termination clause", d.extracted_text.getD ""))
    ∧ (∀ m ∈ (_legal_classify_async classifyBackendsC "m1" "termination clause").output.matches_,
        m.citation.permalink
          = classifyPermalink m.citation.document_id m.citation.start m.citation.end_
        ∧ ∃ d ∈ classifyDocsC, ∃ res,
            classifyBackendsC.classify_iql (d.extracted_text.getD "") = .ok res
            ∧ ∃ im ∈ res.matches_,
              m.citation.document_id = d.id.getD ""
              ∧ m.citation.start = im.start_index.getD 0
              ∧ m.citation.end_ = im.end_index.getD (im.text.getD "").length
              ∧ m.text = im.text.getD "")
    ∧ (_legal_classify_async classifyBackendsC "m1" "termination clause").output.matches_.Pairwise
        (fun a b => b.score ≤ a.score) :=
  classify_iql_pipeline classifyBackendsC "m1" "termination clause"
    classifyDocsC rfl (by decide)

/-- C9: permalink round-trip.  For identifiers over the permalink
grammar's id alphabet (no `#` or `@` — UUIDs, which the pipeline's
document and chunk ids are), parsing recovers exactly the components each
of the pipeline's three formatters interpolated, across all four grammar
forms; as the four parses are pairwise distinct `ParsedCite` values, the
formatters are jointly injective in those arguments on this domain. -/
theorem permalink_roundtrip (doc chunk : String) (s e : Nat)
    (hd : idOk doc) (hc : idOk chunk) (hchunk : chunk ≠ "") :
    parsePermalink (searchPermalink doc "") = some ⟨doc, none, none⟩
    ∧ parsePermalink (searchPermalink doc chunk) = some ⟨doc, some chunk, none⟩
    ∧ parsePermalink (answerPermalink doc chunk s e)
        = some ⟨doc, some chunk, some (s, e)⟩
    ∧ parsePermalink (classifyPermalink doc s e) = some ⟨doc, none, some (s, e)⟩ :=
  ⟨parse_searchPermalink_doc doc hd,
    parse_searchPermalink_chunk doc chunk hd hc hchunk,
    parse_answerPermalink doc chunk s e hd hc,
    parse_classifyPermalink doc s e hd⟩

/-- Witness for `permalink_roundtrip` at concrete UUID identifiers and
offsets. -/
theorem permalink_roundtrip_witness :
    parsePermalink (searchPermalink "a1b2c3d4-e5f6-7890-abcd-ef0123456789" "")
      = some ⟨"a1b2c3d4-e5f6-7890-abcd-ef0123456789", none, none⟩
    ∧ parsePermalink (searchPermalink "a1b2c3d4-e5f6-7890-abcd-ef0123456789"
          "0f1e2d3c-4b5a-6978-8695-a4b3c2d1e0f9")
      = some ⟨"a1b2c3d4-e5f6-7890-abcd-ef0123456789",
          some "0f1e2d3c-4b5a-6978-8695-a4b3c2d1e0f9", none⟩
    ∧ parsePermalink (answerPermalink "a1b2c3d4-e5f6-7890-abcd-ef0123456789"
          "0f1e2d3c-4b5a-6978-8695-a4b3c2d1e0f9" 5 12)
      = some ⟨"a1b2c3d4-e5f6-7890-abcd-ef0123456789",
          some "0f1e2d3c-4b5a-6978-8695-a4b3c2d1e0f9", some (5, 12)⟩
    ∧ parsePermalink (classifyPermalink "a1b2c3d4-e5f6-7890-abcd-ef0123456789" 5 12)
      = some ⟨"a1b2c3d4-e5f6-7890-abcd-ef0123456789", none, some (5, 12)⟩ :=
  permalink_roundtrip "a1b2c3d4-e5f6-7890-abcd-ef0123456789"
    "0f1e2d3c-4b5a-6978-8695-a4b3c2d1e0f9" 5 12
    (by decide) (by decide) (by decide)

end OrderlyIndustry
